import Mathlib

/-!
Verification of the ColorPicker repository (src/script.js and the unnamed
sibling implementation src/unnamed/part_000).

Modelling conventions:
* JavaScript numbers are modelled as exact rationals (`ℚ`); `Math.round`
  is Mathlib's `round` (both round half toward positive infinity), and
  `Math.floor` on nonnegative arguments is `Int.floor`.
* Strings are modelled as `List Char`; the regular expression used by
  `hexToRgb` is hand-compiled into an equivalent pattern match.
* The `ColorPicker` session of src/script.js is a record of the fields
  the modelled operations read or write: the stored RGB triple, the
  alpha value, the hue slider value, and the saturation/lightness text
  inputs.  DOM fields that are only ever written for display are omitted.
-/

/- ===== ColorUtils.hexToRgb / ColorUtils.rgbToHex (src/script.js 8-24) ===== -/

/-- Value of one hexadecimal digit, case-insensitive, as in the character
class `[a-f\d]` with the `i` flag of the regex in `hexToRgb`. -/
def hexDigitVal (c : Char) : Option ℕ :=
  if '0' ≤ c ∧ c ≤ '9' then some (c.toNat - '0'.toNat)
  else if 'a' ≤ c ∧ c ≤ 'f' then some (c.toNat - 'a'.toNat + 10)
  else if 'A' ≤ c ∧ c ≤ 'F' then some (c.toNat - 'A'.toNat + 10)
  else none

/-- `parseInt(xx, 16)` applied to a two-hex-digit group captured by the
regex of `hexToRgb`. -/
def parseHexPair (c1 c2 : Char) : Option ℤ :=
  match hexDigitVal c1, hexDigitVal c2 with
  | some d1, some d2 => some (16 * (d1 : ℤ) + (d2 : ℤ))
  | _, _ => none

/-- `ColorUtils.hexToRgb` (src/script.js 8-15): the regex
`/^#?([a-f\d]{2})([a-f\d]{2})([a-f\d]{2})$/i` accepts an optional leading
`#` followed by exactly six case-insensitive hex digits; on a match the
three two-digit groups are parsed in base 16, otherwise `null` (here
`none`). -/
def hexToRgb (s : List Char) : Option (ℤ × ℤ × ℤ) :=
  let s' := match s with
    | '#' :: rest => rest
    | other => other
  match s' with
  | [c1, c2, c3, c4, c5, c6] =>
    match parseHexPair c1 c2, parseHexPair c3 c4, parseHexPair c5 c6 with
    | some r, some g, some b => some (r, g, b)
    | _, _, _ => none
  | _ => none

/-- The hex digit characters produced by `Number.prototype.toString(16)`:
`0`-`9` then lowercase `a`-`f`. -/
def toHexDigit (n : ℕ) : Char :=
  if n < 10 then Char.ofNat ('0'.toNat + n) else Char.ofNat ('a'.toNat + (n - 10))

/-- The two-character form of `toHex` in `rgbToHex` (src/script.js 19-22):
for `n < 256`, `n.toString(16)` zero-padded to length 2 is exactly the
base-16 digits `n / 16` and `n % 16`. -/
def toHexByte (n : ℕ) : List Char :=
  [toHexDigit (n / 16), toHexDigit (n % 16)]

/-- `Math.round(Math.max(0, Math.min(255, n)))` from `toHex`. -/
def clampRoundByte (q : ℚ) : ℤ :=
  round (max 0 (min 255 q))

/-- `ColorUtils.rgbToHex` (src/script.js 18-24). -/
def rgbToHex (r g b : ℚ) : List Char :=
  '#' :: (toHexByte (clampRoundByte r).toNat ++
    (toHexByte (clampRoundByte g).toNat ++ toHexByte (clampRoundByte b).toNat))

set_option maxRecDepth 4000 in
lemma parse_toHexByte : ∀ n : Fin 256,
    parseHexPair (toHexDigit (n.val / 16)) (toHexDigit (n.val % 16)) = some (n.val : ℤ) := by
  decide

lemma clampRoundByte_int (r : ℤ) (h0 : 0 ≤ r) (h1 : r ≤ 255) :
    clampRoundByte (r : ℚ) = r := by
  unfold clampRoundByte
  rw [min_eq_right (by exact_mod_cast h1), max_eq_right (by exact_mod_cast h0),
    round_intCast]

/-- Core round-trip fact shared by the hex-related claims: formatting an
in-range integer triple with `rgbToHex` and parsing it back with
`hexToRgb` restores the triple. -/
lemma hex_roundtrip_int (r g b : ℤ) (hr0 : 0 ≤ r) (hr1 : r ≤ 255)
    (hg0 : 0 ≤ g) (hg1 : g ≤ 255) (hb0 : 0 ≤ b) (hb1 : b ≤ 255) :
    hexToRgb (rgbToHex (r : ℚ) (g : ℚ) (b : ℚ)) = some (r, g, b) := by
  have er := parse_toHexByte ⟨r.toNat, by omega⟩
  have eg := parse_toHexByte ⟨g.toNat, by omega⟩
  have eb := parse_toHexByte ⟨b.toNat, by omega⟩
  simp only [Fin.val_mk] at er eg eb
  simp only [rgbToHex, clampRoundByte_int r hr0 hr1, clampRoundByte_int g hg0 hg1,
    clampRoundByte_int b hb0 hb1, toHexByte, List.cons_append, List.nil_append,
    hexToRgb, er, eg, eb, Option.some.injEq]
  rw [Int.toNat_of_nonneg hr0, Int.toNat_of_nonneg hg0, Int.toNat_of_nonneg hb0]

/-- C9: for every RGB triple of integers in `[0,255]`, `hexToRgb` applied
to `rgbToHex (r, g, b)` succeeds and returns exactly `(r, g, b)`. -/
theorem hexToRgb_rgbToHex_roundtrip (r g b : ℤ) (hr0 : 0 ≤ r) (hr1 : r ≤ 255)
    (hg0 : 0 ≤ g) (hg1 : g ≤ 255) (hb0 : 0 ≤ b) (hb1 : b ≤ 255) :
    hexToRgb (rgbToHex (r : ℚ) (g : ℚ) (b : ℚ)) = some (r, g, b) :=
  hex_roundtrip_int r g b hr0 hr1 hg0 hg1 hb0 hb1

/-- Witness for C9 at the repository's default color `(79, 70, 229)`. -/
theorem hexToRgb_rgbToHex_roundtrip_witness :
    hexToRgb (rgbToHex ((79 : ℤ) : ℚ) ((70 : ℤ) : ℚ) ((229 : ℤ) : ℚ)) =
      some (79, 70, 229) :=
  hexToRgb_rgbToHex_roundtrip 79 70 229 (by norm_num) (by norm_num) (by norm_num)
    (by norm_num) (by norm_num) (by norm_num)

/- ===== ColorUtils.hslToRgb (src/script.js 57-87) ===== -/

/-- The inner `hue2rgb` helper of `hslToRgb` (src/script.js 62-69).  Note
that the two wrap adjustments are applied at most once each. -/
def hue2rgb (p q t : ℚ) : ℚ :=
  let t1 := if t < 0 then t + 1 else t
  let t2 := if t1 > 1 then t1 - 1 else t1
  if t2 < 1/6 then p + (q - p) * 6 * t2
  else if t2 < 1/2 then q
  else if t2 < 2/3 then p + (q - p) * (2/3 - t2) * 6
  else p

/-- The three rounded channels produced at the end of `hslToRgb`
(src/script.js 77-86), as a function of `p`, `q` and the normalized hue. -/
def hslChannels (p q h' : ℚ) : ℤ × ℤ × ℤ :=
  (round (hue2rgb p q (h' + 1/3) * 255),
   round (hue2rgb p q h' * 255),
   round (hue2rgb p q (h' - 1/3) * 255))

/-- `ColorUtils.hslToRgb` (src/script.js 57-87). -/
def hslToRgb (h s l : ℚ) : ℤ × ℤ × ℤ :=
  let s' := s / 100
  let l' := l / 100
  if s' = 0 then
    (round (l' * 255), round (l' * 255), round (l' * 255))
  else
    let q := if l' < 1/2 then l' * (1 + s') else l' + s' - l' * s'
    let p := 2 * l' - q
    hslChannels p q (h / 360)

lemma hue2rgb_add_one (p q t : ℚ) (h1 : -1 ≤ t) (h2 : t ≤ 1) :
    hue2rgb p q (t + 1) = hue2rgb p q t := by
  simp only [hue2rgb]
  rcases lt_trichotomy t 0 with ht | ht | ht
  · rw [if_neg (by linarith : ¬ t + 1 < 0), if_pos ht,
      if_neg (by linarith : ¬ t + 1 > 1)]
  · subst ht
    norm_num
  · rw [if_neg (by linarith : ¬ t + 1 < 0), if_pos (by linarith : t + 1 > 1),
      if_neg (by linarith : ¬ t < 0), if_neg (by linarith : ¬ t > 1),
      (by ring : t + 1 - 1 = t)]

lemma hslChannels_add_one (p q h' : ℚ) (hA : -1 ≤ h' - 1/3) (hB : h' + 1/3 ≤ 1) :
    hslChannels p q (h' + 1) = hslChannels p q h' := by
  unfold hslChannels
  rw [(by ring : h' + 1 + 1/3 = h' + 1/3 + 1), (by ring : h' + 1 - 1/3 = h' - 1/3 + 1),
    hue2rgb_add_one p q (h' + 1/3) (by linarith) hB,
    hue2rgb_add_one p q h' (by linarith) (by linarith),
    hue2rgb_add_one p q (h' - 1/3) hA (by linarith)]

lemma hslToRgb_add_360 (h s l : ℚ) (h1 : -240 ≤ h) (h2 : h ≤ 240) :
    hslToRgb (h + 360) s l = hslToRgb h s l := by
  simp only [hslToRgb]
  rw [(by ring : (h + 360) / 360 = h / 360 + 1)]
  by_cases hs : s / 100 = 0
  · simp only [if_pos hs]
  · simp only [if_neg hs]
    exact hslChannels_add_one _ _ _ (by linarith) (by linarith)

/-- `h mod 360` on rationals, reduced to a value in `[0, 360)`: the
"taken modulo 360" of the spec and claim C5. -/
def hueMod360 (h : ℚ) : ℚ := h - 360 * (⌊h / 360⌋ : ℚ)

/-- C5 (amended): the hue argument of `hslToRgb` may be reduced modulo
360 provided it lies in `[-240, 600]`; the single-step wrap in `hue2rgb`
makes the equation fail outside that interval. -/
theorem hslToRgb_hueMod (h s l : ℚ) (hh1 : -240 ≤ h) (hh2 : h ≤ 600)
    (_hs1 : 0 ≤ s) (_hs2 : s ≤ 100) (_hl1 : 0 ≤ l) (_hl2 : l ≤ 100) :
    hslToRgb h s l = hslToRgb (hueMod360 h) s l := by
  have lo : (-1 : ℤ) ≤ ⌊h / 360⌋ := by
    rw [Int.le_floor]
    push_cast
    linarith
  have hi : ⌊h / 360⌋ < 2 := by
    rw [Int.floor_lt]
    push_cast
    linarith
  have hfl : ⌊h / 360⌋ = -1 ∨ ⌊h / 360⌋ = 0 ∨ ⌊h / 360⌋ = 1 := by omega
  unfold hueMod360
  rcases hfl with hf | hf | hf <;> rw [hf]
  · have hneg : h < 0 := by
      have := Int.lt_floor_add_one (h / 360)
      rw [hf] at this
      push_cast at this
      linarith
    rw [(by push_cast; ring : h - 360 * ((-1 : ℤ) : ℚ) = h + 360)]
    exact (hslToRgb_add_360 h s l hh1 (by linarith)).symm
  · rw [(by push_cast; ring : h - 360 * ((0 : ℤ) : ℚ) = h)]
  · have h360 : (360 : ℚ) ≤ h := by
      have := Int.le_floor.mp (le_of_eq hf.symm)
      push_cast at this
      linarith
    rw [(by push_cast; ring : h - 360 * ((1 : ℤ) : ℚ) = h - 360)]
    conv_lhs => rw [(by ring : h = (h - 360) + 360)]
    exact hslToRgb_add_360 (h - 360) s l (by linarith) (by linarith)

/-- Witness for C5 at `h = 450`: `hslToRgb 450 100 50` agrees with
`hslToRgb 90 100 50`. -/
theorem hslToRgb_hueMod_witness :
    hslToRgb 450 100 50 = hslToRgb (hueMod360 450) 100 50 :=
  hslToRgb_hueMod 450 100 50 (by norm_num) (by norm_num) (by norm_num)
    (by norm_num) (by norm_num) (by norm_num)

/-- Counterexample to C5 as stated: at `h = 720` the hue is not taken
modulo 360 — `hslToRgb 720 100 50 = (0,0,0)` while
`hslToRgb 0 100 50 = (255,0,0)`. -/
theorem hslToRgb_mod360_fails_720 :
    hslToRgb 720 100 50 ≠ hslToRgb (hueMod360 720) 100 50 ∧
      hslToRgb 720 100 50 = (0, 0, 0) ∧ hslToRgb (hueMod360 720) 100 50 = (255, 0, 0) := by
  have e1 : hslToRgb 720 100 50 = (0, 0, 0) := by
    norm_num [hslToRgb, hslChannels, hue2rgb, round_eq, Prod.ext_iff]
  have e2 : hslToRgb (hueMod360 720) 100 50 = (255, 0, 0) := by
    norm_num [hslToRgb, hslChannels, hue2rgb, hueMod360, round_eq, Prod.ext_iff]
  refine ⟨?_, e1, e2⟩
  rw [e1, e2]
  decide

/- ===== ColorUtils.rgbToHsl (src/script.js 27-54) ===== -/

/-- `ColorUtils.rgbToHsl` (src/script.js 27-54).  The `switch (max)`
statement matches `r`, then `g`, then `b`, modelled by the if-chain; the
three outputs are rounded to integers as in the source. -/
def rgbToHsl (r g b : ℚ) : ℤ × ℤ × ℤ :=
  let r' := r / 255
  let g' := g / 255
  let b' := b / 255
  let mx := max r' (max g' b')
  let mn := min r' (min g' b')
  let l := (mx + mn) / 2
  if mx = mn then
    (0, 0, round (l * 100))
  else
    let d := mx - mn
    let s := if l > 1/2 then d / (2 - mx - mn) else d / (mx + mn)
    let h0 := if mx = r' then (g' - b') / d + (if g' < b' then 6 else 0)
      else if mx = g' then (b' - r') / d + 2
      else (r' - g') / d + 4
    let h := h0 / 6
    (round (h * 360), round (s * 100), round (l * 100))

/-- The RGB → HSL → RGB round trip of claim C1: convert with `rgbToHsl`
(which rounds h, s, l to integers) and feed the rounded values back into
`hslToRgb`. -/
def rgbHslRoundTrip (r g b : ℚ) : ℤ × ℤ × ℤ :=
  let hsl := rgbToHsl r g b
  hslToRgb (hsl.1 : ℚ) (hsl.2.1 : ℚ) (hsl.2.2 : ℚ)

/-- C1 fails on the code: the triple `(2, 0, 0)` round-trips through the
integer-rounded HSL form `(0, 100, 0)` to `(0, 0, 0)`, so the red channel
changes by 2, exceeding the claimed tolerance of 1. -/
theorem roundTrip_changes_by_two :
    rgbHslRoundTrip 2 0 0 = (0, 0, 0) ∧ 1 < |(2 : ℤ) - (rgbHslRoundTrip 2 0 0).1| := by
  have e : rgbHslRoundTrip 2 0 0 = (0, 0, 0) := by
    have e1 : rgbToHsl 2 0 0 = (0, 100, 0) := by
      norm_num [rgbToHsl, round_eq, Prod.ext_iff, max_def, min_def]
    rw [rgbHslRoundTrip, e1]
    norm_num [hslToRgb, hslChannels, hue2rgb, round_eq, Prod.ext_iff]
  rw [e]
  decide

/- ===== ColorPicker session state (src/script.js 158-424) ===== -/

/-- Value of a decimal digit character, `none` otherwise. -/
def decDigitVal (c : Char) : Option ℕ :=
  if '0' ≤ c ∧ c ≤ '9' then some (c.toNat - '0'.toNat) else none

/-- Longest prefix of decimal digits, as digit values. -/
def leadingDigits : List Char → List ℕ
  | [] => []
  | c :: rest =>
    match decDigitVal c with
    | some d => d :: leadingDigits rest
    | none => []

def digitsToNat (ds : List ℕ) : ℕ := ds.foldl (fun a d => 10 * a + d) 0

/-- JavaScript `parseInt(text)` restricted to plain decimal numerals
(optionally signed); `none` models `NaN`.  The modelled inputs never use
the whitespace or `0x` forms that `parseInt` would also accept. -/
def parseIntJS (s : List Char) : Option ℤ :=
  match s with
  | '-' :: rest =>
    if leadingDigits rest = [] then none else some (-(digitsToNat (leadingDigits rest) : ℤ))
  | '+' :: rest =>
    if leadingDigits rest = [] then none else some (digitsToNat (leadingDigits rest) : ℤ)
  | other =>
    if leadingDigits other = [] then none else some (digitsToNat (leadingDigits other) : ℤ)

/-- `parseInt(text) || 0`: `NaN` is coerced to `0` (and `0` stays `0`). -/
def parseIntOr0 (s : List Char) : ℤ :=
  match parseIntJS s with
  | some v => v
  | none => 0

/-- The `ColorPicker` session fields of src/script.js that the modelled
operations read or write: `currentColor` (stored as integers: every write
is either a `parseInt` result or a rounded conversion), `currentAlpha`,
the hue slider value, and the saturation/lightness text inputs.  Fields
that are only written for display (hex text, RGB texts, swatches) are
omitted. -/
structure PickerState where
  color : ℤ × ℤ × ℤ
  alpha : ℚ
  hueSlider : ℤ
  sInput : ℤ
  lInput : ℤ
deriving DecidableEq

/-- `ColorPicker.updateColor` (src/script.js 426-470) restricted to the
modelled fields: it always rewrites the hue slider with the hue derived
from the current RGB value, and — unless the edit originated in the HSL
inputs (`updateHsl = false`) — also rewrites the saturation/lightness
inputs with the derived values. -/
def updateColorState (uHsl : Bool) (st : PickerState) : PickerState :=
  let hsl := rgbToHsl (st.color.1 : ℚ) (st.color.2.1 : ℚ) (st.color.2.2 : ℚ)
  { st with
    hueSlider := hsl.1
    sInput := if uHsl then hsl.2.1 else st.sInput
    lInput := if uHsl then hsl.2.2 else st.lInput }

/-- The state built by the constructor (src/script.js 159-172): default
color `#4F46E5 = (79, 70, 229)`, alpha 1, then `updateColor()`. -/
def initialState : PickerState :=
  { color := (79, 70, 229), alpha := 1, hueSlider := 0, sInput := 0, lInput := 0 }

def defaultState : PickerState := updateColorState true initialState

/-- `ColorPicker.handleFieldDrag` (src/script.js 319-343) with the
pointer position normalized to the field rectangle: the source clamps the
offset to `[0, width] × [0, height]` and divides by the dimensions, so
the normalized coordinates are clamped to `[0,1]`; saturation and
lightness are rounded, the hue is read from the hue slider. -/
def handleFieldDrag (st : PickerState) (nx ny : ℚ) : PickerState :=
  let sat : ℤ := round (max 0 (min 1 nx) * 100)
  let light : ℤ := round (100 - max 0 (min 1 ny) * 100)
  let rgb := hslToRgb (st.hueSlider : ℚ) (sat : ℚ) (light : ℚ)
  updateColorState true { st with color := rgb }

/-- `ColorPicker.handleHueChange` (src/script.js 381-391): `hv` is the
slider value after the user's move; saturation and lightness are read
back from the HSL text inputs. -/
def handleHueChange (st : PickerState) (hv : ℤ) : PickerState :=
  let rgb := hslToRgb (hv : ℚ) (st.sInput : ℚ) (st.lInput : ℚ)
  updateColorState true { st with hueSlider := hv, color := rgb }

/-- `ColorPicker.handleAlphaChange` (src/script.js 393-396): store the
slider value and run `updateColor()`. -/
def handleAlphaChange (st : PickerState) (v : ℚ) : PickerState :=
  updateColorState true { st with alpha := v }

/-- `ColorPicker.handleHexChange` (src/script.js 398-405): parse failures
leave the state untouched. -/
def handleHexChange (st : PickerState) (text : List Char) : PickerState :=
  match hexToRgb text with
  | some rgb => updateColorState true { st with color := rgb }
  | none => st

/-- `ColorPicker.handleRgbChange` (src/script.js 407-414): each of the
three RGB text fields is read with `parseInt(v) || 0` and stored without
any validation or clamping. -/
def handleRgbChange (st : PickerState) (rs gs bs : List Char) : PickerState :=
  updateColorState true { st with color := (parseIntOr0 rs, parseIntOr0 gs, parseIntOr0 bs) }

/-- `ColorPicker.handleHslChange` (src/script.js 416-424): the three HSL
text fields are read with `parseInt(v) || 0` and converted without
validation; `updateColor(true, true, false)` suppresses rewriting the HSL
inputs themselves. -/
def handleHslChange (st : PickerState) (hs ss ls : List Char) : PickerState :=
  let rgb := hslToRgb (parseIntOr0 hs : ℚ) (parseIntOr0 ss : ℚ) (parseIntOr0 ls : ℚ)
  updateColorState false { st with color := rgb }

lemma updateColorState_color (u : Bool) (st : PickerState) :
    (updateColorState u st).color = st.color := rfl

/-- C2 fails on the code: typing `999` into the red text field stores the
out-of-range channel 999 in `currentColor` — `handleRgbChange` neither
validates nor clamps. -/
theorem handleRgbChange_out_of_range :
    (handleRgbChange defaultState ['9', '9', '9'] ['0'] ['0']).color = (999, 0, 0) ∧
      ¬ (handleRgbChange defaultState ['9', '9', '9'] ['0'] ['0']).color.1 ≤ 255 := by
  have e : (handleRgbChange defaultState ['9', '9', '9'] ['0'] ['0']).color = (999, 0, 0) := by
    rw [handleRgbChange, updateColorState_color]
    decide
  exact ⟨e, by rw [e]; decide⟩

/-- C3 fails on the code: the RGB text edit `300, 12, 34` has a component
outside `[0,255]`, so the claim requires the color to stay unchanged, but
`handleRgbChange` overwrites it with `(300, 12, 34)`. -/
theorem handleRgbChange_not_atomic :
    (handleRgbChange defaultState ['3', '0', '0'] ['1', '2'] ['3', '4']).color = (300, 12, 34) ∧
      (handleRgbChange defaultState ['3', '0', '0'] ['1', '2'] ['3', '4']).color ≠
        defaultState.color := by
  have e : (handleRgbChange defaultState ['3', '0', '0'] ['1', '2'] ['3', '4']).color
      = (300, 12, 34) := by
    rw [handleRgbChange, updateColorState_color]
    decide
  have e2 : defaultState.color = (79, 70, 229) := rfl
  exact ⟨e, by rw [e, e2]; decide⟩

/- ===== Luminance, contrast and the ViewUpdate (src/script.js 90-105, 426-499) ===== -/

/-- The per-channel sRGB-to-linear transform inside
`ColorUtils.relativeLuminance` (src/script.js 91-94).  The gamma branch
uses a real 2.4-power, hence the value lives in `ℝ`. -/
noncomputable def srgbToLinear (c : ℚ) : ℝ :=
  let cn : ℝ := (c : ℝ) / 255
  if cn ≤ 0.03928 then cn / 12.92 else ((cn + 0.055) / 1.055) ^ (2.4 : ℝ)

/-- `ColorUtils.relativeLuminance` (src/script.js 90-96). -/
noncomputable def relativeLuminance (r g b : ℚ) : ℝ :=
  0.2126 * srgbToLinear r + 0.7152 * srgbToLinear g + 0.0722 * srgbToLinear b

/-- `ColorUtils.contrastRatio` (src/script.js 99-105). -/
noncomputable def contrastRatio (c1 c2 : ℤ × ℤ × ℤ) : ℝ :=
  let l1 := relativeLuminance (c1.1 : ℚ) (c1.2.1 : ℚ) (c1.2.2 : ℚ)
  let l2 := relativeLuminance (c2.1 : ℚ) (c2.2.1 : ℚ) (c2.2.2 : ℚ)
  (max l1 l2 + 0.05) / (min l1 l2 + 0.05)

/-- The ViewUpdate of the spec: the derived views that
`ColorPicker.updateColor` (src/script.js 426-470) and
`ColorPicker.updateContrastInfo` (src/script.js 485-499) publish after a
mutating operation. -/
structure ViewUpdate where
  hex : List Char
  hsl : ℤ × ℤ × ℤ
  contrastWhite : ℝ
  contrastBlack : ℝ

/-- `updateColor` destructures `this.currentColor` once and derives hex
and hsl from it; `updateContrastInfo` reads the same (unchanged)
`this.currentColor` and compares it against white and black.  The
ViewUpdate published for a color `c` is therefore this function of `c`. -/
noncomputable def viewUpdateOf (c : ℤ × ℤ × ℤ) : ViewUpdate :=
  { hex := rgbToHex (c.1 : ℚ) (c.2.1 : ℚ) (c.2.2 : ℚ)
    hsl := rgbToHsl (c.1 : ℚ) (c.2.1 : ℚ) (c.2.2 : ℚ)
    contrastWhite := contrastRatio c (255, 255, 255)
    contrastBlack := contrastRatio c (0, 0, 0) }

/-- C4 (amended): for every mutating operation whose resulting current
color has integer channels inside `[0,255]`, the published ViewUpdate is
internally consistent — `hexToRgb` of its hex field is exactly its rgb
field, its hsl field is `rgbToHsl` of its rgb field, and both contrast
ratios are computed from that same rgb field. -/
theorem viewUpdate_consistent (c : ℤ × ℤ × ℤ)
    (h1 : 0 ≤ c.1) (h2 : c.1 ≤ 255) (h3 : 0 ≤ c.2.1) (h4 : c.2.1 ≤ 255)
    (h5 : 0 ≤ c.2.2) (h6 : c.2.2 ≤ 255) :
    hexToRgb (viewUpdateOf c).hex = some c ∧
      (viewUpdateOf c).hsl = rgbToHsl (c.1 : ℚ) (c.2.1 : ℚ) (c.2.2 : ℚ) ∧
      (viewUpdateOf c).contrastWhite = contrastRatio c (255, 255, 255) ∧
      (viewUpdateOf c).contrastBlack = contrastRatio c (0, 0, 0) :=
  ⟨hex_roundtrip_int c.1 c.2.1 c.2.2 h1 h2 h3 h4 h5 h6, rfl, rfl, rfl⟩

/-- Witness for C4 at the default color `(79, 70, 229)`. -/
theorem viewUpdate_consistent_witness :
    hexToRgb (viewUpdateOf (79, 70, 229)).hex = some (79, 70, 229) :=
  (viewUpdate_consistent (79, 70, 229) (by norm_num) (by norm_num) (by norm_num)
    (by norm_num) (by norm_num) (by norm_num)).1

/-- Counterexample to C4 as stated: the mutating operation
`handleRgbChange` with text `400` produces the reachable color
`(400, 0, 0)`, whose ViewUpdate is NOT internally consistent — its hex
field decodes to the clamped `(255, 0, 0)`, not to its rgb field. -/
theorem viewUpdate_inconsistent_out_of_range :
    hexToRgb (viewUpdateOf (handleRgbChange defaultState ['4', '0', '0'] ['0'] ['0']).color).hex ≠
      some (handleRgbChange defaultState ['4', '0', '0'] ['0'] ['0']).color := by
  have ec : (handleRgbChange defaultState ['4', '0', '0'] ['0'] ['0']).color = (400, 0, 0) := by
    rw [handleRgbChange, updateColorState_color]
    decide
  rw [ec]
  have e1 : clampRoundByte ((400 : ℚ)) = 255 := by
    norm_num [clampRoundByte, round_eq, max_def, min_def]
  have e0 : clampRoundByte ((0 : ℚ)) = 0 := by
    norm_num [clampRoundByte, round_eq, max_def, min_def]
  simp only [viewUpdateOf, rgbToHex, Int.cast_ofNat, Int.cast_zero, e1, e0]
  decide

/- ===== C10: the alpha slider edit changes only alpha ===== -/

/-- C10: in any settled session state (one in which the derived views
have been rewritten by `updateColor`, as holds after every mutating
operation), `handleAlphaChange` with a value `v ∈ [0,1]` changes only the
alpha field; in particular the current color — and with it the published
ViewUpdate (hex, hsl and both contrast ratios) — is unchanged. -/
theorem handleAlphaChange_only_alpha (st : PickerState) (v : ℚ)
    (hst : updateColorState true st = st) (_hv0 : 0 ≤ v) (_hv1 : v ≤ 1) :
    handleAlphaChange st v = { st with alpha := v } ∧
      (handleAlphaChange st v).color = st.color ∧
      viewUpdateOf (handleAlphaChange st v).color = viewUpdateOf st.color := by
  have e : handleAlphaChange st v = { updateColorState true st with alpha := v } := rfl
  exact ⟨by rw [e, hst], rfl, rfl⟩

/-- `updateColor` is idempotent on the modelled fields: the derived
values depend only on the (unchanged) color. -/
lemma updateColorState_idem_true (st : PickerState) :
    updateColorState true (updateColorState true st) = updateColorState true st := rfl

/-- Witness for C10 at the settled default state with `v = 1/2`. -/
theorem handleAlphaChange_only_alpha_witness :
    handleAlphaChange defaultState (1/2) = { defaultState with alpha := 1/2 } :=
  (handleAlphaChange_only_alpha defaultState (1/2) (updateColorState_idem_true initialState)
    (by norm_num) (by norm_num)).1

/- ===== C6: hue across an achromatic round trip ===== -/

/-- C6 fails on the code: starting from the default state (hue slider
243), dragging the 2D field to the bottom (lightness 0, an achromatic
extreme) makes `updateColor` rewrite the hue slider with the hue derived
from black, namely 0; dragging back to the middle then uses hue 0, so the
original hue 243 is lost even though no edit supplied a new hue. -/
theorem hue_lost_at_achromatic :
    defaultState.hueSlider = 243 ∧
      (handleFieldDrag defaultState (1/2) 1).color = (0, 0, 0) ∧
      (handleFieldDrag (handleFieldDrag defaultState (1/2) 1) (1/2) (1/2)).hueSlider = 0 := by
  have d0 : defaultState = ⟨(79, 70, 229), 1, 243, 75, 59⟩ := by
    norm_num [defaultState, initialState, updateColorState, rgbToHsl, round_eq,
      max_def, min_def, PickerState.mk.injEq, Prod.ext_iff]
  have d1 : handleFieldDrag defaultState (1/2) 1 = ⟨(0, 0, 0), 1, 0, 0, 0⟩ := by
    rw [d0]
    norm_num [handleFieldDrag, updateColorState, rgbToHsl, hslToRgb, hslChannels,
      hue2rgb, round_eq, max_def, min_def, PickerState.mk.injEq, Prod.ext_iff]
  have d2 : handleFieldDrag (⟨(0, 0, 0), 1, 0, 0, 0⟩ : PickerState) (1/2) (1/2)
      = ⟨(191, 64, 64), 1, 0, 50, 50⟩ := by
    norm_num [handleFieldDrag, updateColorState, rgbToHsl, hslToRgb, hslChannels,
      hue2rgb, round_eq, max_def, min_def, PickerState.mk.injEq, Prod.ext_iff]
  refine ⟨by rw [d0], by rw [d1], ?_⟩
  rw [d1, d2]

/- ===== ColorUtils.generateHarmonies (src/script.js 108-153) ===== -/

/-- JavaScript `%` on the nonnegative operands used by the harmony hue
arithmetic: for `a ≥ 0`, `b > 0` the truncating `%` agrees with the
flooring remainder `a - b * ⌊a / b⌋`. -/
def jsMod (a b : ℚ) : ℚ := a - b * (⌊a / b⌋ : ℚ)

/-- The four `type` strings accepted by the `switch` in
`generateHarmonies`. -/
inductive HarmonyKind
  | complementary
  | analogous
  | triadic
  | tetradic

/-- The HSL members pushed onto `harmonies` by the `switch` statement of
`generateHarmonies` (src/script.js 112-143), in order. -/
def generateHarmoniesHsl (h s l : ℚ) (k : HarmonyKind) : List (ℚ × ℚ × ℚ) :=
  match k with
  | .complementary => [(h, s, l), (jsMod (h + 180) 360, s, l)]
  | .analogous =>
      [(jsMod (h - 30 + 360) 360, s, l), (jsMod (h - 15 + 360) 360, s, l), (h, s, l),
       (jsMod (h + 15) 360, s, l), (jsMod (h + 30) 360, s, l)]
  | .triadic => [(h, s, l), (jsMod (h + 120) 360, s, l), (jsMod (h + 240) 360, s, l)]
  | .tetradic =>
      [(h, s, l), (jsMod (h + 90) 360, s, l), (jsMod (h + 180) 360, s, l),
       (jsMod (h + 270) 360, s, l)]

/-- `ColorUtils.generateHarmonies` (src/script.js 108-153): the trailing
`map` realizes each HSL member as `{hex, rgb, hsl}`. -/
def generateHarmonies (h s l : ℚ) (k : HarmonyKind) :
    List (List Char × (ℤ × ℤ × ℤ) × (ℚ × ℚ × ℚ)) :=
  (generateHarmoniesHsl h s l k).map fun m =>
    let rgb := hslToRgb m.1 m.2.1 m.2.2
    (rgbToHex (rgb.1 : ℚ) (rgb.2.1 : ℚ) (rgb.2.2 : ℚ), rgb, m)

/-- The fixed hue offsets of each harmony kind, as stated by the spec. -/
def harmonyOffsets : HarmonyKind → List ℚ
  | .complementary => [0, 180]
  | .analogous => [-30, -15, 0, 15, 30]
  | .triadic => [0, 120, 240]
  | .tetradic => [0, 90, 180, 270]

lemma jsMod_add_360 (x : ℚ) : jsMod (x + 360) 360 = jsMod x 360 := by
  unfold jsMod
  rw [(by ring : (x + 360) / 360 = x / 360 + 1), Int.floor_add_one]
  push_cast
  ring

lemma jsMod_nonneg_360 (x : ℚ) : 0 ≤ jsMod x 360 := by
  unfold jsMod
  have hfl := Int.floor_le (x / 360)
  linarith

lemma jsMod_eq_self (x : ℚ) (h0 : 0 ≤ x) (h1 : x < 360) : jsMod x 360 = x := by
  unfold jsMod
  have hz : ⌊x / 360⌋ = 0 := by
    apply Int.floor_eq_zero_iff.mpr
    rw [Set.mem_Ico]
    constructor
    · positivity
    · linarith
  rw [hz]
  push_cast
  ring

lemma generateHarmonies_proj (h s l : ℚ) (k : HarmonyKind) :
    (generateHarmonies h s l k).map (fun m => m.2.2) = generateHarmoniesHsl h s l k := by
  unfold generateHarmonies
  rw [List.map_map]
  have e : ((fun (m : List Char × (ℤ × ℤ × ℤ) × (ℚ × ℚ × ℚ)) => m.2.2) ∘
      (fun (m : ℚ × ℚ × ℚ) =>
        (rgbToHex ((hslToRgb m.1 m.2.1 m.2.2).1 : ℚ) ((hslToRgb m.1 m.2.1 m.2.2).2.1 : ℚ)
            ((hslToRgb m.1 m.2.1 m.2.2).2.2 : ℚ),
          hslToRgb m.1 m.2.1 m.2.2, m))) = fun m => m := by
    funext m
    rfl
  rw [e, List.map_id']

lemma triadic_350 :
    (generateHarmonies 350 50 50 HarmonyKind.triadic).map (fun m => m.2.2.1)
      = [350, 110, 230] := by
  have j1 : jsMod ((350 : ℚ) + 120) 360 = 110 := by norm_num [jsMod]
  have j2 : jsMod ((350 : ℚ) + 240) 360 = 230 := by norm_num [jsMod]
  show [(350 : ℚ), jsMod ((350 : ℚ) + 120) 360, jsMod ((350 : ℚ) + 240) 360] = [350, 110, 230]
  rw [j1, j2]

/-- C8: for a base hue in `[0,360)`, every member generated by
`generateHarmonies` has hue `(base + offset) mod 360` for its kind's
fixed offset, reduced to a nonnegative value, with the base's saturation
and lightness unchanged; in particular triadic on hue 350 yields the hues
350, 110, 230 in order. -/
theorem generateHarmonies_hues (h s l : ℚ) (h0 : 0 ≤ h) (h1 : h < 360) (k : HarmonyKind) :
    (generateHarmonies h s l k).map (fun m => m.2.2)
        = (harmonyOffsets k).map (fun o => (jsMod (h + o) 360, s, l)) ∧
      (∀ m ∈ generateHarmonies h s l k, 0 ≤ m.2.2.1 ∧ m.2.2.2.1 = s ∧ m.2.2.2.2 = l) ∧
      (generateHarmonies 350 50 50 HarmonyKind.triadic).map (fun m => m.2.2.1)
        = [350, 110, 230] := by
  have e0 : jsMod (h + 0) 360 = h := by
    rw [add_zero]
    exact jsMod_eq_self h h0 h1
  have a30 : jsMod (h - 30 + 360) 360 = jsMod (h + -30) 360 := by
    rw [(by ring : h - 30 + 360 = h + -30 + 360), jsMod_add_360]
  have a15 : jsMod (h - 15 + 360) 360 = jsMod (h + -15) 360 := by
    rw [(by ring : h - 15 + 360 = h + -15 + 360), jsMod_add_360]
  have eList : generateHarmoniesHsl h s l k
      = (harmonyOffsets k).map (fun o => (jsMod (h + o) 360, s, l)) := by
    cases k with
    | complementary =>
        show [(h, s, l), (jsMod (h + 180) 360, s, l)]
          = [(jsMod (h + 0) 360, s, l), (jsMod (h + 180) 360, s, l)]
        rw [e0]
    | analogous =>
        show [(jsMod (h - 30 + 360) 360, s, l), (jsMod (h - 15 + 360) 360, s, l), (h, s, l),
            (jsMod (h + 15) 360, s, l), (jsMod (h + 30) 360, s, l)]
          = [(jsMod (h + -30) 360, s, l), (jsMod (h + -15) 360, s, l), (jsMod (h + 0) 360, s, l),
            (jsMod (h + 15) 360, s, l), (jsMod (h + 30) 360, s, l)]
        rw [e0, a30, a15]
    | triadic =>
        show [(h, s, l), (jsMod (h + 120) 360, s, l), (jsMod (h + 240) 360, s, l)]
          = [(jsMod (h + 0) 360, s, l), (jsMod (h + 120) 360, s, l), (jsMod (h + 240) 360, s, l)]
        rw [e0]
    | tetradic =>
        show [(h, s, l), (jsMod (h + 90) 360, s, l), (jsMod (h + 180) 360, s, l),
            (jsMod (h + 270) 360, s, l)]
          = [(jsMod (h + 0) 360, s, l), (jsMod (h + 90) 360, s, l), (jsMod (h + 180) 360, s, l),
            (jsMod (h + 270) 360, s, l)]
        rw [e0]
  have eMem : ∀ m ∈ generateHarmoniesHsl h s l k, 0 ≤ m.1 ∧ m.2.1 = s ∧ m.2.2 = l := by
    intro m hm
    cases k with
    | complementary =>
        simp only [generateHarmoniesHsl, List.mem_cons, List.not_mem_nil, or_false] at hm
        rcases hm with rfl | rfl
        · exact ⟨h0, rfl, rfl⟩
        · exact ⟨jsMod_nonneg_360 _, rfl, rfl⟩
    | analogous =>
        simp only [generateHarmoniesHsl, List.mem_cons, List.not_mem_nil, or_false] at hm
        rcases hm with rfl | rfl | rfl | rfl | rfl
        · exact ⟨jsMod_nonneg_360 _, rfl, rfl⟩
        · exact ⟨jsMod_nonneg_360 _, rfl, rfl⟩
        · exact ⟨h0, rfl, rfl⟩
        · exact ⟨jsMod_nonneg_360 _, rfl, rfl⟩
        · exact ⟨jsMod_nonneg_360 _, rfl, rfl⟩
    | triadic =>
        simp only [generateHarmoniesHsl, List.mem_cons, List.not_mem_nil, or_false] at hm
        rcases hm with rfl | rfl | rfl
        · exact ⟨h0, rfl, rfl⟩
        · exact ⟨jsMod_nonneg_360 _, rfl, rfl⟩
        · exact ⟨jsMod_nonneg_360 _, rfl, rfl⟩
    | tetradic =>
        simp only [generateHarmoniesHsl, List.mem_cons, List.not_mem_nil, or_false] at hm
        rcases hm with rfl | rfl | rfl | rfl
        · exact ⟨h0, rfl, rfl⟩
        · exact ⟨jsMod_nonneg_360 _, rfl, rfl⟩
        · exact ⟨jsMod_nonneg_360 _, rfl, rfl⟩
        · exact ⟨jsMod_nonneg_360 _, rfl, rfl⟩
  refine ⟨by rw [generateHarmonies_proj, eList], ?_, triadic_350⟩
  intro m hm
  have h2 : m.2.2 ∈ generateHarmoniesHsl h s l k := by
    rw [← generateHarmonies_proj h s l k]
    exact List.mem_map_of_mem _ hm
  exact eMem _ h2

/-- Witness for C8 at base `(350, 50, 50)` with the triadic kind. -/
theorem generateHarmonies_hues_witness :
    (generateHarmonies 350 50 50 HarmonyKind.triadic).map (fun m => m.2.2)
      = (harmonyOffsets HarmonyKind.triadic).map (fun o => (jsMod ((350 : ℚ) + o) 360, 50, 50)) :=
  (generateHarmonies_hues 350 50 50 (by norm_num) (by norm_num) HarmonyKind.triadic).1

/- ===== Palette import (src/script.js 756-780) ===== -/

/-- A saved palette record: `{id, name, colors, created}`
(src/script.js 648-653). -/
structure Palette where
  id : List Char
  name : List Char
  colors : List (List Char)
  created : List Char
deriving DecidableEq

/-- `ColorPicker.handleImportPalette` (src/script.js 756-780) after the
file has been read: `some list` models a successfully parsed JSON array,
`none` a parse failure or non-array payload (both leave the saved list
unchanged).  On an array the code runs
`this.savedPalettes = [...this.savedPalettes, ...imported]` — the
imported records are appended wholesale, with no id inspection. -/
def handleImportPalette (saved : List Palette) (payload : Option (List Palette)) : List Palette :=
  match payload with
  | some imported => saved ++ imported
  | none => saved

/-- Counterexample to C7 as stated: importing a palette whose id `"1"`
duplicates an existing id leaves both records with id `"1"` — the merged
ids are not pairwise distinct and no fresh id is assigned. -/
theorem import_duplicate_ids :
    ¬ ((handleImportPalette [{ id := ['1'], name := ['a'], colors := [], created := [] }]
        (some [{ id := ['1'], name := ['b'], colors := [], created := [] }])).map
          Palette.id).Nodup := by
  decide

/-- C7 (amended): `handleImportPalette` appends a well-formed imported
array wholesale, preserving every id verbatim — missing or duplicate ids
are never re-assigned, so ids need not be distinct after an import. -/
theorem import_appends_ids_verbatim (saved imported : List Palette) :
    (handleImportPalette saved (some imported)).map Palette.id
      = saved.map Palette.id ++ imported.map Palette.id := by
  simp [handleImportPalette]
